import Mathlib

/-!
Verification of the reactivly reactive query server.

The definitions below are a shallow embedding of the reactive runtime found in
`packages/server/src/index.ts` and its sibling snapshots (the derived-store
engine, the session stores, the query/mutation factories and the WebSocket
subscription handling).  Subscriber callbacks are identified by numeric tokens;
an operation that fans out to subscribers returns, next to the updated state,
the list of `(token, argument)` calls it performs synchronously, in the order
the code performs them.  JavaScript `undefined` is modelled as `Option.none`,
thrown exceptions as `Except.error`.
-/

namespace Reactivly

/-- A `BehaviorSubject`-backed global store (`globalStore`): `value` is the
subject's current value, `subscribers` the observer tokens in registration
order. -/
structure Store (V : Type) where
  value : V
  subscribers : List Nat
deriving Repr, DecidableEq

/-- `globalStore(init)` starts with the initial value and no subscribers. -/
def Store.init (v : V) : Store V :=
  { value := v, subscribers := [] }

/-- `get: () => subj.getValue()`. -/
def Store.get (s : Store V) : V :=
  s.value

/-- `set: (val) => subj.next(val)` — the subject records the value and
synchronously invokes every current subscriber with it, in registration
order.  The second component is that synchronous call sequence. -/
def Store.set (s : Store V) (v : V) : Store V × List (Nat × V) :=
  ({ s with value := v }, s.subscribers.map (fun t => (t, v)))

/-- `mutate: (fn) => subj.next(fn(subj.getValue()))`. -/
def Store.mutate (s : Store V) (f : V → V) : Store V × List (Nat × V) :=
  s.set (f s.value)

/-- `subscribe: (fn) => subj.subscribe(fn)` — a `BehaviorSubject` adds the
observer and immediately delivers the current value to it. -/
def Store.subscribeTok (s : Store V) (t : Nat) : Store V × List (Nat × V) :=
  ({ s with subscribers := s.subscribers ++ [t] }, [(t, s.value)])

/- ---------------- Session stores (`_sessionStore` / `sessionStore`) ------- -/

/-- One lazily created per-session slot: a `BehaviorSubject` for the value and
a `Subject<void>` notifier, whose subscribers are recorded by token. -/
structure SessionSlot (V : Type) where
  subj : Store V
  notifier : List Nat
deriving Repr, DecidableEq

/-- The state of one `_sessionStore(init)`: the captured initial value and the
`Map<sessionId, {subj, notifier}>` of slots. -/
structure SessionStoreState (V : Type) where
  init : V
  sessions : String → Option (SessionSlot V)

/-- `current(sessionId)`: look the slot up, creating it (with the initial value
and empty observer lists) on first access. -/
def SessionStoreState.current (st : SessionStoreState V) (sid : String) :
    SessionSlot V × SessionStoreState V :=
  match st.sessions sid with
  | some slot => (slot, st)
  | none =>
      let slot : SessionSlot V := { subj := Store.init st.init, notifier := [] }
      (slot, { st with sessions := fun x => if x = sid then some slot else st.sessions x })

/-- Store a new slot value for `sid` in the map. -/
def SessionStoreState.put (st : SessionStoreState V) (sid : String)
    (slot : SessionSlot V) : SessionStoreState V :=
  { st with sessions := fun x => if x = sid then some slot else st.sessions x }

/-- `_sessionStore.get(sessionId)`: read the slot's subject value. -/
def internalGet (st : SessionStoreState V) (sid : String) :
    V × SessionStoreState V :=
  let (slot, st1) := st.current sid
  (slot.subj.value, st1)

/-- `_sessionStore.set(sessionId, val)`: `subj.next(val)` on the slot's
subject, then `notifier.notifyChanges()`.  Returns the updated state, the
synchronous value calls and the notifier ticks. -/
def internalSet (st : SessionStoreState V) (sid : String) (v : V) :
    SessionStoreState V × List (Nat × V) × List Nat :=
  let (slot, st1) := st.current sid
  let (subj1, calls) := slot.subj.set v
  (st1.put sid { slot with subj := subj1 }, calls, slot.notifier)

/-- `_sessionStore.mutate(sessionId, fn)`. -/
def internalMutate (st : SessionStoreState V) (sid : String) (f : V → V) :
    SessionStoreState V × List (Nat × V) × List Nat :=
  let (slot, st1) := st.current sid
  let (subj1, calls) := slot.subj.set (f slot.subj.value)
  (st1.put sid { slot with subj := subj1 }, calls, slot.notifier)

/-- `_sessionStore.subscribe(sessionId, fn)`: subscribe the token to the
slot's `BehaviorSubject`, which immediately delivers the current value. -/
def internalSubscribe (st : SessionStoreState V) (sid : String) (t : Nat) :
    SessionStoreState V × List (Nat × V) :=
  let (slot, st1) := st.current sid
  let (subj1, calls) := slot.subj.subscribeTok t
  (st1.put sid { slot with subj := subj1 }, calls)

/-- Value currently visible to session `B`: the slot's subject value, or the
initial value while the slot does not exist yet. -/
def readVal (st : SessionStoreState V) (sid : String) : V :=
  match st.sessions sid with
  | some slot => slot.subj.value
  | none => st.init

/-- Subscriber tokens registered on session `sid`'s value subject. -/
def slotSubs (st : SessionStoreState V) (sid : String) : List Nat :=
  match st.sessions sid with
  | some slot => slot.subj.subscribers
  | none => []

/-- Apply a sequence of `set` operations, each under its own session id. -/
def applyWrites (st : SessionStoreState V) : List (String × V) → SessionStoreState V
  | [] => st
  | (sid, v) :: ws => applyWrites (internalSet st sid v).1 ws

/-- The last value written under session `B` in a write sequence, if any. -/
def lastWrite (ws : List (String × V)) (B : String) : Option V :=
  match ws with
  | [] => none
  | (sid, v) :: rest =>
      match lastWrite rest B with
      | some w => some w
      | none => if sid = B then some v else none

/-- A `_sessionStore(init)` as it is right after creation: the captured
initial value and an empty session map. -/
def freshSessionStore (init : V) : SessionStoreState V :=
  { init := init, sessions := fun _ => none }

/-- The error thrown by `getCurrentSessionId` when the `AsyncLocalStorage`
slot is empty. -/
def noSessionContextMsg : String :=
  "sessionStore used outside of session context"

/-- `sessionStore(init).get`: read the ambient session id (throwing when none
is bound) and delegate to `_sessionStore.get`. -/
def sessionStoreGet (ctx : Option String) (st : SessionStoreState V) :
    Except String V × SessionStoreState V :=
  match ctx with
  | none => (Except.error noSessionContextMsg, st)
  | some sid =>
      let (v, st1) := internalGet st sid
      (Except.ok v, st1)

/-- `sessionStore(init).set`. -/
def sessionStoreSet (ctx : Option String) (st : SessionStoreState V) (v : V) :
    Except String (List (Nat × V) × List Nat) × SessionStoreState V :=
  match ctx with
  | none => (Except.error noSessionContextMsg, st)
  | some sid =>
      let (st1, calls, ticks) := internalSet st sid v
      (Except.ok (calls, ticks), st1)

/-- `sessionStore(init).mutate`. -/
def sessionStoreMutate (ctx : Option String) (st : SessionStoreState V) (f : V → V) :
    Except String (List (Nat × V) × List Nat) × SessionStoreState V :=
  match ctx with
  | none => (Except.error noSessionContextMsg, st)
  | some sid =>
      let (st1, calls, ticks) := internalMutate st sid f
      (Except.ok (calls, ticks), st1)

/-- `sessionStore(init).subscribe`. -/
def sessionStoreSubscribe (ctx : Option String) (st : SessionStoreState V) (t : Nat) :
    Except String (List (Nat × V)) × SessionStoreState V :=
  match ctx with
  | none => (Except.error noSessionContextMsg, st)
  | some sid =>
      let (st1, calls) := internalSubscribe st sid t
      (Except.ok calls, st1)

/- ---------------- Derived store (`derivedStore`, part_014) ---------------- -/

/-- The mutable state of one `derivedStore({deps, fn, cache, debounce})`
instance.  `depsCount` is the length of the `deps` array; `hasCache` is
`cache !== 0`.  `subjValue` is the current value of the internal
`BehaviorSubject` (`none` both for the initial `undefined` and for the
plain `Subject` used when caching is off); `subjSubs` are the tokens
currently subscribed to that subject.  `depSubsActive` records whether the
dependency subscriptions taken at construction are still held.
`inFlight`, `runsStarted` and `runsCompleted` count executions of `fn` for
specification purposes. -/
structure DerivedState (V : Type) where
  depsCount : Nat
  hasCache : Bool
  lastValue : Option V
  subjValue : Option V
  activeSubs : Int
  running : Bool
  pending : Bool
  depSubsActive : Bool
  subjSubs : List Nat
  inFlight : Nat
  runsStarted : Nat
  runsCompleted : Nat
deriving Repr, DecidableEq

/-- `derivedStore(opts)` construction: no value yet, no subscribers, and —
eagerly, before any subscriber exists — one subscription taken on every
dependency (`deps.map(dep => dep.subscribe(() => run()))`). -/
def derivedInit (V : Type) (depsCount : Nat) (hasCache : Bool) : DerivedState V :=
  { depsCount := depsCount, hasCache := hasCache, lastValue := none,
    subjValue := none, activeSubs := 0, running := false, pending := false,
    depSubsActive := true, subjSubs := [], inFlight := 0, runsStarted := 0,
    runsCompleted := 0 }

/-- Dependency-subscription handles currently held by the computation. -/
def DerivedState.depHandles (s : DerivedState V) : Nat :=
  if s.depSubsActive then s.depsCount else 0

/-- The synchronous head of `execute()`: `if (running) { pending = true;
return; } running = true;` after which `fn()` starts executing. -/
def executeStart (s : DerivedState V) : DerivedState V :=
  if s.running then { s with pending := true }
  else { s with running := true, inFlight := s.inFlight + 1,
                runsStarted := s.runsStarted + 1 }

/-- The continuation of `execute()` once `await fn()` has resolved with `r`
(`none` models `fn` resolving to `undefined`): store `lastValue` when caching
is on, `subj.next(result)` — each subscription wrapper runs
`if (val !== undefined) fn(val)` — then the `finally` block clears `running`
and, when `pending` was set, immediately starts exactly one follow-up run. -/
def executeFinish (s : DerivedState V) (r : Option V) :
    DerivedState V × List (Nat × Option V) :=
  let s1 := if s.hasCache then { s with lastValue := r, subjValue := r } else s
  let calls := (s1.subjSubs.map (fun t => (t, r))).filter (fun c => !c.2.isNone)
  let s2 := { s1 with running := false, inFlight := s1.inFlight - 1,
                      runsCompleted := s1.runsCompleted + 1 }
  if s2.pending then (executeStart { s2 with pending := false }, calls)
  else (s2, calls)

/-- `derivedStore(...).subscribe(fn)`: `activeSubs++`; if a cached value is
present deliver it immediately, else `run()` (with no debounce this is the
synchronous head of `execute()`); then `subj.subscribe(...)`, where the
`BehaviorSubject` used in the cached case immediately replays its current
value through the `undefined` filter. -/
def derivedSubscribe (s : DerivedState V) (t : Nat) :
    DerivedState V × List (Nat × Option V) :=
  let s1 := { s with activeSubs := s.activeSubs + 1 }
  let immediate : List (Nat × Option V) :=
    match s1.hasCache, s1.lastValue with
    | true, some v => [(t, some v)]
    | _, _ => []
  let s2 := if immediate.isEmpty then executeStart s1 else s1
  let replay : List (Nat × Option V) :=
    if s2.hasCache then
      match s2.subjValue with
      | some v => [(t, some v)]
      | none => []
    else []
  ({ s2 with subjSubs := s2.subjSubs ++ [t] }, immediate ++ replay)

/-- The `unsubscribe` closure of the handle returned by
`derivedStore(...).subscribe`: `sub.unsubscribe()` (removing the token from
the subject, a no-op when already removed), then — unconditionally —
`activeSubs--`, and when the count reaches zero every dependency handle is
released. -/
def derivedUnsubscribe (s : DerivedState V) (t : Nat) : DerivedState V :=
  let s1 := { s with subjSubs := s.subjSubs.erase t }
  let s2 := { s1 with activeSubs := s1.activeSubs - 1 }
  if s2.activeSubs = 0 then { s2 with depSubsActive := false } else s2

/-- `get` of the derived store: throws unless caching is enabled and a value
has been produced and not expired. -/
def derivedGet (s : DerivedState V) : Except String V × DerivedState V :=
  if s.hasCache = false then
    (Except.error "Cannot get value from a non-cached derived store", s)
  else
    match s.lastValue with
    | none => (Except.error "Value not yet initialized", s)
    | some v => (Except.ok v, s)

/-- `set` of the derived store: always throws. -/
def derivedSet (s : DerivedState V) (_v : V) : Except String Unit × DerivedState V :=
  (Except.error "Cannot set derived store directly", s)

/-- `mutate` of the derived store: always throws. -/
def derivedMutate (s : DerivedState V) (_f : V → V) :
    Except String Unit × DerivedState V :=
  (Except.error "Cannot mutate derived store directly", s)

/-- Observable events on one derived store.  `depFire` is a dependency
invoking the callback registered at construction (only possible while the
dependency handles are held); `complete r` is the in-flight `fn()` resolving
with `r`; `cacheExpire` is the finite-ttl timer clearing `lastValue`;
`subscribeTok` and `unsubscribeTok` are the public handle operations. -/
inductive DEvent (V : Type) where
  | depFire : DEvent V
  | complete : Option V → DEvent V
  | cacheExpire : DEvent V
  | subscribeTok : Nat → DEvent V
  | unsubscribeTok : Nat → DEvent V
deriving Repr, DecidableEq

/-- One step of the derived-store machine, returning the subscriber calls the
event performs. -/
def dstep (s : DerivedState V) : DEvent V → DerivedState V × List (Nat × Option V)
  | DEvent.depFire => (if s.depSubsActive then executeStart s else s, [])
  | DEvent.complete r => if s.running then executeFinish s r else (s, [])
  | DEvent.cacheExpire => ({ s with lastValue := none }, [])
  | DEvent.subscribeTok t => derivedSubscribe s t
  | DEvent.unsubscribeTok t => (derivedUnsubscribe s t, [])

/-- Run a sequence of events, collecting every subscriber call. -/
def drun (s : DerivedState V) : List (DEvent V) → DerivedState V × List (Nat × Option V)
  | [] => (s, [])
  | e :: es => ((drun (dstep s e).1 es).1, (dstep s e).2 ++ (drun (dstep s e).1 es).2)

/- ---------------- Live-query runner (`query(...)`, part_015) -------------- -/

/-- The closure state of one `query(opts)(args).subscribe(notify)` call in the
live-query factory: the `active` flag cleared by `unsubscribe`, the
`running`/`pending` overlap flags of `run()`, and whether the manual
dependency subscriptions are still held. -/
structure QueryRunState where
  active : Bool
  running : Bool
  pending : Bool
  depSubsActive : Bool
deriving Repr, DecidableEq

/-- `unsubscribe: () => { active = false; subs.forEach(s => s.unsubscribe()); }`. -/
def queryUnsubscribe (s : QueryRunState) : QueryRunState :=
  { s with active := false, depSubsActive := false }

/- ---------------- Subscription handling (`createReactiveWSServer`) -------- -/

/-- One entry of `clientSubs` plus the data identifying the frame that
created it: the action name the code stores (`ClientSubscription.name`), the
raw params the frame carried (kept here only to state deduplication claims —
the code itself does not retain them), the derived-store instance the frame's
factory call constructed, and the server-side subscriber token attached to
it. -/
structure ClientSub (V : Type) where
  name : String
  params : String
  comp : DerivedState V
  tok : Nat
deriving Repr, DecidableEq

/-- Per-connection state: the `clientSubs` list for this socket and a fresh
token supply. -/
structure ConnState (V : Type) where
  subs : List (ClientSub V)
  nextTok : Nat
deriving Repr, DecidableEq

/-- `clientSubs.set(ws, [])` on connection open. -/
def connInit (V : Type) : ConnState V :=
  { subs := [], nextTok := 0 }

/-- A `subscribe` frame for a query action with `depsCount` declared
dependencies and cache flag `hasCache`: `const result = fn(msg.params)`
invokes the query factory, which constructs a **fresh** `derivedStore`
(subscribing to its dependencies), then `result.subscribe(...)` attaches the
connection's forwarding callback and the handle is pushed onto `clientSubs`.
Returns the update payloads emitted synchronously. -/
def handleSubscribe (depsCount : Nat) (hasCache : Bool) (name params : String)
    (st : ConnState V) : ConnState V × List (Nat × Option V) :=
  let comp := derivedInit V depsCount hasCache
  let (comp1, calls) := derivedSubscribe comp st.nextTok
  ({ subs := st.subs ++ [{ name := name, params := params, comp := comp1, tok := st.nextTok }],
     nextTok := st.nextTok + 1 }, calls)

/-- An `unsubscribe` frame: `for (const s of subs.filter(s => s.name ===
msg.name)) s.sub.unsubscribe()` — every handle whose name matches is
cancelled — then `clientSubs` keeps only the entries with a different name.
The cancelled computations (with their handles run) are returned next to the
remaining state. -/
def handleUnsubscribe (name : String) (st : ConnState V) :
    ConnState V × List (DerivedState V) :=
  let cancelled := (st.subs.filter (fun cs => cs.name = name)).map
    (fun cs => derivedUnsubscribe cs.comp cs.tok)
  ({ st with subs := st.subs.filter (fun cs => ¬cs.name = name) }, cancelled)

/-- Number of live computations a connection holds for a `(name, params)`
pair. -/
def compsFor (st : ConnState V) (name params : String) : Nat :=
  (st.subs.filter (fun cs => cs.name = name ∧ cs.params = params)).length

/-- Total dependency-subscription handles held across a connection's live
computations. -/
def totalDepHandles (st : ConnState V) : Nat :=
  (st.subs.map (fun cs => cs.comp.depHandles)).sum

/- ---------------- Mutations ---------------------------------------------- -/

/-- A mutation definition `mutation({schema?, fn})`: the optional zod schema
is a validator that either normalizes the argument or fails, and `fn`
receives the parsed value (`none` models the `undefined` passed when no
schema is declared). -/
structure MutationDef (P Q R : Type) where
  schema : Option (P → Except String Q)
  fn : Option Q → R

/-- The body of the function `mutation(opts)` returns:
`const parsed = opts.schema ? opts.schema.parse(args) : undefined;
return opts.fn(parsed);`.  The second component counts invocations of
`opts.fn`. -/
def runMutation (m : MutationDef P Q R) (args : P) : Except String R × Nat :=
  match m.schema with
  | some parse =>
      match parse args with
      | Except.ok q => (Except.ok (m.fn (some q)), 1)
      | Except.error e => (Except.error e, 0)
  | none => (Except.ok (m.fn none), 1)

/-- Frames the server can emit while handling a message. -/
inductive OutFrame (R : Type) where
  | update : String → R → OutFrame R
  | mutationResult : String → R → String → OutFrame R
  | errorFrame : String → OutFrame R
deriving Repr, DecidableEq

/-- Whether a frame is an error frame. -/
def OutFrame.isError : OutFrame R → Bool
  | OutFrame.errorFrame _ => true
  | _ => false

/-- The server's handling of a `mutation` frame `{name, params, requestId}`:
`actions[msg.name]` missing emits one error frame (without a request id);
otherwise `await fn(msg.params)` runs the mutation and on success one
`mutationResult` frame carries the result and the request id.  The `message`
handler wraps the body in **no** try/catch, so when the validator rejects,
the rejection escapes unhandled and no frame at all is written; nothing
closes the connection.  The second component counts invocations of the
mutation's `fn`. -/
def handleMutationFrame (act : Option (MutationDef P Q R)) (name requestId : String)
    (params : P) : List (OutFrame R) × Nat :=
  match act with
  | none => ([OutFrame.errorFrame ("Unknown action: " ++ name)], 0)
  | some m =>
      match runMutation m params with
      | (Except.ok r, k) => ([OutFrame.mutationResult name r requestId], k)
      | (Except.error _, k) => ([], k)

/- ======================================================================== -/
/- Lemmas                                                                    -/
/- ======================================================================== -/

theorem internalSet_calls (st : SessionStoreState V) (sid : String) (v : V) :
    (internalSet st sid v).2.1 = (slotSubs st sid).map (fun t => (t, v)) := by
  unfold internalSet SessionStoreState.current slotSubs Store.set
  cases h : st.sessions sid <;> simp [h, Store.init]

theorem readVal_internalSet (st : SessionStoreState V) (sid : String) (v : V) (B : String) :
    readVal (internalSet st sid v).1 B = if sid = B then v else readVal st B := by
  unfold internalSet SessionStoreState.current SessionStoreState.put readVal Store.set
  by_cases hB : B = sid
  · subst hB
    cases h : st.sessions B <;> simp [h]
  · have hsB : ¬sid = B := fun h => hB h.symm
    cases h : st.sessions sid <;> simp [h, hB, hsB]

theorem slotSubs_internalSet (st : SessionStoreState V) (sid : String) (v : V) (B : String) :
    slotSubs (internalSet st sid v).1 B = slotSubs st B := by
  unfold internalSet SessionStoreState.current SessionStoreState.put slotSubs Store.set
  by_cases hB : B = sid
  · subst hB
    cases h : st.sessions B <;> simp [h, Store.init]
  · cases h : st.sessions sid <;> simp [h, hB]

theorem lastWrite_cons_getD (sid : String) (v : V) (ws : List (String × V))
    (B : String) (d : V) :
    (lastWrite ((sid, v) :: ws) B).getD d
      = (lastWrite ws B).getD (if sid = B then v else d) := by
  cases h : lastWrite ws B with
  | none => by_cases hs : sid = B <;> simp [lastWrite, h, hs]
  | some w => simp [lastWrite, h]

theorem readVal_applyWrites (ws : List (String × V)) (st : SessionStoreState V)
    (B : String) :
    readVal (applyWrites st ws) B = (lastWrite ws B).getD (readVal st B) := by
  induction ws generalizing st with
  | nil => simp [applyWrites, lastWrite]
  | cons hd tl ih =>
      obtain ⟨sid, v⟩ := hd
      rw [applyWrites, ih, lastWrite_cons_getD, readVal_internalSet]

theorem executeStart_flight (s : DerivedState V)
    (h : s.inFlight = if s.running then 1 else 0) :
    (executeStart s).inFlight = if (executeStart s).running then 1 else 0 := by
  unfold executeStart
  by_cases hr : s.running <;> simp [hr] at h ⊢ <;> simp [h]

theorem executeFinish_flight (s : DerivedState V) (r : Option V)
    (h : s.inFlight = 1) :
    (executeFinish s r).1.inFlight = if (executeFinish s r).1.running then 1 else 0 := by
  unfold executeFinish executeStart
  by_cases hc : s.hasCache = true <;> by_cases hp : s.pending = true <;>
    simp [hc, hp, h]

theorem derivedSubscribe_flight (s : DerivedState V) (t : Nat)
    (h : s.inFlight = if s.running then 1 else 0) :
    (derivedSubscribe s t).1.inFlight
      = if (derivedSubscribe s t).1.running then 1 else 0 := by
  by_cases hr : s.running = true <;> by_cases hc : s.hasCache = true <;>
    cases hl : s.lastValue <;>
      simp [hr, hc] at h <;>
        simp [derivedSubscribe, executeStart, hr, hc, hl, h]

theorem derivedUnsubscribe_flight (s : DerivedState V) (t : Nat) :
    (derivedUnsubscribe s t).inFlight = s.inFlight ∧
    (derivedUnsubscribe s t).running = s.running := by
  unfold derivedUnsubscribe
  by_cases hz : s.activeSubs - 1 = 0 <;> simp [hz]

theorem dstep_flight (s : DerivedState V) (e : DEvent V)
    (h : s.inFlight = if s.running then 1 else 0) :
    (dstep s e).1.inFlight = if (dstep s e).1.running then 1 else 0 := by
  cases e with
  | depFire =>
      by_cases hd : s.depSubsActive = true <;>
        simp [dstep, hd, executeStart_flight s h, h]
  | complete r =>
      by_cases hr : s.running = true
      · have h1 : s.inFlight = 1 := by simpa [hr] using h
        simpa [dstep, hr] using executeFinish_flight s r h1
      · simpa [dstep, hr] using h
  | cacheExpire => simpa [dstep] using h
  | subscribeTok t => simpa [dstep] using derivedSubscribe_flight s t h
  | unsubscribeTok t =>
      have h2 := derivedUnsubscribe_flight s t
      simpa [dstep, h2.1, h2.2] using h

theorem drun_flight (tr : List (DEvent V)) (s : DerivedState V)
    (h : s.inFlight = if s.running then 1 else 0) :
    (drun s tr).1.inFlight = if (drun s tr).1.running then 1 else 0 := by
  induction tr generalizing s with
  | nil => simpa [drun] using h
  | cons e es ih => simpa [drun] using ih (dstep s e).1 (dstep_flight s e h)

theorem pending_update_self (s : DerivedState V) (hp : s.pending = true) :
    ({ s with pending := true } : DerivedState V) = s := by
  cases s
  simp_all

theorem drun_fires_fixed (m : Nat) (s : DerivedState V) (hrun : s.running = true)
    (hdep : s.depSubsActive = true) (hp : s.pending = true) :
    (drun s (List.replicate m DEvent.depFire)).1 = s := by
  induction m generalizing s with
  | zero => simp [drun]
  | succ k ih =>
      have h1 : executeStart s = ({ s with pending := true } : DerivedState V) := by
        simp [executeStart, hrun]
      have h2 : dstep s DEvent.depFire = (executeStart s, []) := by
        simp [dstep, hdep]
      have hstep : (dstep s DEvent.depFire).1 = s := by
        rw [h2]
        show executeStart s = s
        rw [h1]
        exact pending_update_self s hp
      rw [List.replicate_succ]
      simp only [drun, hstep]
      exact ih s hrun hdep hp

theorem drun_fires_pending (n : Nat) (s : DerivedState V) (hrun : s.running = true)
    (hdep : s.depSubsActive = true) (hn : 1 ≤ n) :
    (drun s (List.replicate n DEvent.depFire)).1
      = ({ s with pending := true } : DerivedState V) := by
  obtain ⟨k, rfl⟩ : ∃ k, n = k + 1 := ⟨n - 1, by omega⟩
  rw [List.replicate_succ]
  have hstep : (dstep s DEvent.depFire).1 = ({ s with pending := true } : DerivedState V) := by
    simp [dstep, executeStart, hdep, hrun]
  simp only [drun, hstep]
  exact drun_fires_fixed k _ hrun hdep rfl

theorem executeFinish_follow (s : DerivedState V) (r : Option V)
    (hp : s.pending = true) :
    (executeFinish s r).1.runsStarted = s.runsStarted + 1 ∧
    (executeFinish s r).1.running = true ∧
    (executeFinish s r).1.pending = false := by
  unfold executeFinish executeStart
  by_cases hc : s.hasCache = true <;> simp [hc, hp]

theorem executeFinish_idle (s : DerivedState V) (r : Option V)
    (hp : s.pending = false) :
    (executeFinish s r).1.runsStarted = s.runsStarted ∧
    (executeFinish s r).1.running = false := by
  unfold executeFinish
  by_cases hc : s.hasCache = true <;> simp [hc, hp]

/- ======================================================================== -/
/- Claim theorems                                                            -/
/- ======================================================================== -/

/-- C2: for every store — global or session-scoped — with subscribers
`s1 … sn` in registration order, `set(v)` invokes each subscriber exactly
once with argument `v`, in that order, as part of the synchronous call
sequence `set` performs before returning; the subscriber list is unchanged,
so `set(x)` followed by `set(x)` fires every subscriber twice (no equality
suppression). -/
theorem store_set_fanout {V : Type} (s : Store V) (v : V)
    (st : SessionStoreState V) (sid : String) :
    (s.set v).2 = s.subscribers.map (fun t => (t, v)) ∧
    (s.set v).2.map Prod.fst = s.subscribers ∧
    (∀ c ∈ (s.set v).2, c.2 = v) ∧
    (s.set v).1.subscribers = s.subscribers ∧
    ((s.set v).2 ++ ((s.set v).1.set v).2).map Prod.fst
      = s.subscribers ++ s.subscribers ∧
    (internalSet st sid v).2.1 = (slotSubs st sid).map (fun t => (t, v)) := by
  refine ⟨rfl, ?_, ?_, rfl, ?_, internalSet_calls st sid v⟩
  · simp [Store.set, Function.comp_def]
  · intro c hc
    simp only [Store.set, List.mem_map] at hc
    obtain ⟨u, _, he⟩ := hc
    simpa using (Prod.ext_iff.mp he.symm).2
  · simp [Store.set, Function.comp_def]

/-- C7: `get`, `set`, `mutate` and `subscribe` on a session-scoped store all
read the ambient session id first; with no session bound each fails with the
`NoSessionContext` error before touching any session's slot, leaving the
session map untouched. -/
theorem session_ops_need_context {V : Type} (st : SessionStoreState V) (v : V)
    (f : V → V) (t : Nat) :
    sessionStoreGet none st = (Except.error noSessionContextMsg, st) ∧
    sessionStoreSet none st v = (Except.error noSessionContextMsg, st) ∧
    sessionStoreMutate none st f = (Except.error noSessionContextMsg, st) ∧
    sessionStoreSubscribe none st t = (Except.error noSessionContextMsg, st) :=
  ⟨rfl, rfl, rfl, rfl⟩

/-- C4: for a session-scoped store, `set(v)` executed under session `A` fans
out exactly to the subscribers registered under `A` — a subscriber registered
only under a different session `B` is never invoked — and it leaves `B`'s
visible value and subscriber list untouched; `get()` under `B` returns the
last value written under `B`, or the initial value if `B` never wrote. -/
theorem session_isolation {V : Type} (st : SessionStoreState V) (A B : String)
    (v : V) (hAB : A ≠ B) (init : V) (ws : List (String × V)) (t : Nat)
    (_htB : t ∈ slotSubs st B) (htA : t ∉ slotSubs st A) :
    (internalSet st A v).2.1 = (slotSubs st A).map (fun u => (u, v)) ∧
    (∀ w, (t, w) ∉ (internalSet st A v).2.1) ∧
    readVal (internalSet st A v).1 B = readVal st B ∧
    slotSubs (internalSet st A v).1 B = slotSubs st B ∧
    sessionStoreSet (some A) st v
      = (Except.ok ((internalSet st A v).2.1, (internalSet st A v).2.2),
         (internalSet st A v).1) ∧
    sessionStoreGet (some B) st = (Except.ok (readVal st B), (internalGet st B).2) ∧
    readVal (applyWrites (freshSessionStore init) ws) B
      = (lastWrite ws B).getD init := by
  refine ⟨internalSet_calls st A v, ?_, ?_, slotSubs_internalSet st A v B, ?_, ?_, ?_⟩
  · intro w hw
    rw [internalSet_calls] at hw
    obtain ⟨u, hu, he⟩ := List.mem_map.mp hw
    have h1 : u = t := (Prod.ext_iff.mp he).1
    exact htA (h1 ▸ hu)
  · rw [readVal_internalSet]
    simp [hAB]
  · simp [sessionStoreSet]
  · unfold sessionStoreGet internalGet SessionStoreState.current readVal
    cases h : st.sessions B <;> simp [h, Store.init]
  · simpa [freshSessionStore, readVal] using
      readVal_applyWrites ws (freshSessionStore init) B

/-- C3: for every derived computation, at most one execution of the recompute
function is in flight at any time (`inFlight ≤ 1` in every reachable state),
and when the dependencies fire `n ≥ 1` times while one recompute is in
flight, those fires only set the `pending` flag — no new run starts — and
when the in-flight run completes exactly one follow-up run starts
(`runsStarted` grows by exactly one); when that follow-up completes with no
further fires, no additional run starts. -/
theorem overlap_coalescing {V : Type} (s : DerivedState V) (n : Nat)
    (r r1 : Option V) (d : Nat) (c : Bool)
    (hrun : s.running = true) (_hpend : s.pending = false)
    (hdep : s.depSubsActive = true) (hn : 1 ≤ n) :
    (∀ tr : List (DEvent V), (drun (derivedInit V d c) tr).1.inFlight ≤ 1) ∧
    (drun s (List.replicate n DEvent.depFire)).1
      = ({ s with pending := true } : DerivedState V) ∧
    ((dstep (drun s (List.replicate n DEvent.depFire)).1 (DEvent.complete r)).1.runsStarted
        = s.runsStarted + 1 ∧
     (dstep (drun s (List.replicate n DEvent.depFire)).1 (DEvent.complete r)).1.running = true ∧
     (dstep (drun s (List.replicate n DEvent.depFire)).1 (DEvent.complete r)).1.pending = false) ∧
    ((dstep (dstep (drun s (List.replicate n DEvent.depFire)).1 (DEvent.complete r)).1
        (DEvent.complete r1)).1.runsStarted = s.runsStarted + 1 ∧
     (dstep (dstep (drun s (List.replicate n DEvent.depFire)).1 (DEvent.complete r)).1
        (DEvent.complete r1)).1.running = false) := by
  have hfires := drun_fires_pending n s hrun hdep hn
  have hp' : ((drun s (List.replicate n DEvent.depFire)).1).pending = true := by
    rw [hfires]
  have hr' : ((drun s (List.replicate n DEvent.depFire)).1).running = true := by
    rw [hfires]; exact hrun
  have hfirst : (dstep (drun s (List.replicate n DEvent.depFire)).1 (DEvent.complete r))
      = executeFinish (drun s (List.replicate n DEvent.depFire)).1 r := by
    simp [dstep, hr']
  have hfollow := executeFinish_follow (drun s (List.replicate n DEvent.depFire)).1 r hp'
  have hrs : ((drun s (List.replicate n DEvent.depFire)).1).runsStarted = s.runsStarted := by
    rw [hfires]
  refine ⟨?_, hfires, ⟨?_, ?_, ?_⟩, ?_, ?_⟩
  · intro tr
    have h0 : (derivedInit V d c).inFlight
        = if (derivedInit V d c).running then 1 else 0 := by
      simp [derivedInit]
    have := drun_flight tr (derivedInit V d c) h0
    rw [this]
    split <;> omega
  · rw [hfirst, hfollow.1, hrs]
  · rw [hfirst]; exact hfollow.2.1
  · rw [hfirst]; exact hfollow.2.2
  · have hsecond : (dstep (dstep (drun s (List.replicate n DEvent.depFire)).1
        (DEvent.complete r)).1 (DEvent.complete r1))
        = executeFinish (dstep (drun s (List.replicate n DEvent.depFire)).1
            (DEvent.complete r)).1 r1 := by
      rw [hfirst]
      simp [dstep, hfollow.2.1]
    rw [hsecond]
    have hidle := executeFinish_idle (dstep (drun s (List.replicate n DEvent.depFire)).1
        (DEvent.complete r)).1 r1 (by rw [hfirst]; exact hfollow.2.2)
    rw [hidle.1, hfirst, hfollow.1, hrs]
  · have hsecond : (dstep (dstep (drun s (List.replicate n DEvent.depFire)).1
        (DEvent.complete r)).1 (DEvent.complete r1))
        = executeFinish (dstep (drun s (List.replicate n DEvent.depFire)).1
            (DEvent.complete r)).1 r1 := by
      rw [hfirst]
      simp [dstep, hfollow.2.1]
    rw [hsecond]
    exact (executeFinish_idle _ r1 (by rw [hfirst]; exact hfollow.2.2)).2

/-- Witness for `overlap_coalescing`: the concrete cached derived store with
two dependencies right after its first subscriber forced a run is running
with no pending flag; three dependency fires during the run set only
`pending`, and completing the run starts exactly one follow-up. -/
theorem overlap_coalescing_witness :
    ((drun (derivedInit Nat 2 true) [DEvent.subscribeTok 0]).1.running = true ∧
     (drun (derivedInit Nat 2 true) [DEvent.subscribeTok 0]).1.pending = false ∧
     (drun (derivedInit Nat 2 true) [DEvent.subscribeTok 0]).1.depSubsActive = true ∧
     1 ≤ 3) ∧
    (drun (drun (derivedInit Nat 2 true) [DEvent.subscribeTok 0]).1
        (List.replicate 3 DEvent.depFire)).1
      = ({ (drun (derivedInit Nat 2 true) [DEvent.subscribeTok 0]).1 with
            pending := true } : DerivedState Nat) ∧
    (dstep (drun (drun (derivedInit Nat 2 true) [DEvent.subscribeTok 0]).1
        (List.replicate 3 DEvent.depFire)).1 (DEvent.complete (some 5))).1.runsStarted
      = (drun (derivedInit Nat 2 true) [DEvent.subscribeTok 0]).1.runsStarted + 1 :=
  ⟨⟨by decide, by decide, by decide, by decide⟩,
   (overlap_coalescing (drun (derivedInit Nat 2 true) [DEvent.subscribeTok 0]).1
      3 (some 5) (some 6) 2 true (by decide) (by decide) (by decide) (by decide)).2.1,
   (overlap_coalescing (drun (derivedInit Nat 2 true) [DEvent.subscribeTok 0]).1
      3 (some 5) (some 6) 2 true (by decide) (by decide) (by decide) (by decide)).2.2.1.1⟩

/-- Witness for `session_isolation` at a concrete store: session `"b"` has
subscriber `1`, session `"a"` has none; a write under `"a"` fires nothing,
and after the writes `a:=5, b:=7, a:=9` a read under `"b"` yields `7`. -/
theorem session_isolation_witness :
    (("a" : String) ≠ "b" ∧
      (1 : Nat) ∈ slotSubs (internalSubscribe (freshSessionStore (0 : Nat)) "b" 1).1 "b" ∧
      (1 : Nat) ∉ slotSubs (internalSubscribe (freshSessionStore (0 : Nat)) "b" 1).1 "a") ∧
    (∀ w, ((1 : Nat), w) ∉
      (internalSet (internalSubscribe (freshSessionStore (0 : Nat)) "b" 1).1 "a" (5 : Nat)).2.1) ∧
    readVal (applyWrites (freshSessionStore (0 : Nat)) [("a", 5), ("b", 7), ("a", 9)]) "b"
      = (7 : Nat) := by
  have h := session_isolation
    (internalSubscribe (freshSessionStore (0 : Nat)) "b" 1).1 "a" "b" 5
    (by decide) 0 [("a", 5), ("b", 7), ("a", 9)] 1
    (by simp [internalSubscribe, freshSessionStore, SessionStoreState.current,
              SessionStoreState.put, Store.subscribeTok, Store.init, slotSubs])
    (by simp [internalSubscribe, freshSessionStore, SessionStoreState.current,
              SessionStoreState.put, Store.subscribeTok, Store.init, slotSubs])
  refine ⟨⟨by decide, ?_, ?_⟩, h.2.1, by simpa using h.2.2.2.2.2.2⟩
  · simp [internalSubscribe, freshSessionStore, SessionStoreState.current,
          SessionStoreState.put, Store.subscribeTok, Store.init, slotSubs]
  · simp [internalSubscribe, freshSessionStore, SessionStoreState.current,
          SessionStoreState.put, Store.subscribeTok, Store.init, slotSubs]

theorem dstep_depSubs_gone (s : DerivedState V) (e : DEvent V)
    (h : s.depSubsActive = false) : (dstep s e).1.depSubsActive = false := by
  cases e with
  | depFire => simp [dstep, h]
  | complete r =>
      by_cases hr : s.running = true
      · unfold dstep executeFinish executeStart
        by_cases hc : s.hasCache = true <;> by_cases hp : s.pending = true <;>
          simp [hr, hc, hp, h]
      · simp [dstep, hr, h]
  | cacheExpire => simp [dstep, h]
  | subscribeTok t =>
      unfold dstep derivedSubscribe executeStart
      by_cases hc : s.hasCache = true <;> cases hl : s.lastValue <;>
        by_cases hr : s.running = true <;> simp [hc, hl, hr, h]
  | unsubscribeTok t =>
      unfold dstep derivedUnsubscribe
      by_cases hz : s.activeSubs - 1 = 0 <;> simp [hz, h]

theorem drun_depSubs_gone (tr : List (DEvent V)) (s : DerivedState V)
    (h : s.depSubsActive = false) : (drun s tr).1.depSubsActive = false := by
  induction tr generalizing s with
  | nil => simpa [drun] using h
  | cons e es ih => simpa [drun] using ih (dstep s e).1 (dstep_depSubs_gone s e h)

/-- C5 counterexample: a freshly constructed derived store with one declared
dependency has zero subscribers yet already holds one dependency-subscription
handle — `derivedStore` subscribes to its dependencies eagerly at
construction, not when the first subscriber arrives, so a computation with
zero subscribers can hold dependency subscriptions. -/
theorem dep_subscriptions_eager_cx :
    (derivedInit Nat 1 true).activeSubs = 0 ∧
    (derivedInit Nat 1 true).depHandles = 1 := by
  decide

/-- C5 amended: dependency subscriptions are acquired at construction time of
the derived store, before any subscriber exists (`depHandles = depsCount`
with `activeSubs = 0`); every dependency handle is released when an
unsubscribe brings the subscriber count to zero; and once released they are
never re-acquired by any later event. -/
theorem dep_subscription_lifecycle {V : Type} (d : Nat) (c : Bool)
    (s s1 : DerivedState V) (t : Nat) (tr : List (DEvent V))
    (hone : s.activeSubs = 1) (hgone : s1.depSubsActive = false) :
    (derivedInit V d c).depHandles = d ∧
    (derivedInit V d c).activeSubs = 0 ∧
    (derivedUnsubscribe s t).depHandles = 0 ∧
    (drun s1 tr).1.depHandles = 0 := by
  refine ⟨by simp [derivedInit, DerivedState.depHandles], rfl, ?_, ?_⟩
  · unfold derivedUnsubscribe
    simp [hone, DerivedState.depHandles]
  · simp [DerivedState.depHandles, drun_depSubs_gone tr s1 hgone]

/-- Witness for `dep_subscription_lifecycle`: the cached derived store with
one dependency and exactly one subscriber drops to zero handles when that
subscriber cancels, and a store whose handles were released never gets them
back. -/
theorem dep_subscription_lifecycle_witness :
    ((drun (derivedInit Nat 1 true) [DEvent.subscribeTok 0]).1.activeSubs = 1 ∧
     (derivedUnsubscribe (drun (derivedInit Nat 1 true) [DEvent.subscribeTok 0]).1 0).depSubsActive
       = false) ∧
    (derivedUnsubscribe (drun (derivedInit Nat 1 true) [DEvent.subscribeTok 0]).1 0).depHandles
      = 0 ∧
    (drun (derivedUnsubscribe (drun (derivedInit Nat 1 true) [DEvent.subscribeTok 0]).1 0)
        [DEvent.subscribeTok 3, DEvent.depFire]).1.depHandles = 0 :=
  ⟨⟨by decide, by decide⟩,
   (dep_subscription_lifecycle 1 true
      (drun (derivedInit Nat 1 true) [DEvent.subscribeTok 0]).1
      (derivedUnsubscribe (drun (derivedInit Nat 1 true) [DEvent.subscribeTok 0]).1 0)
      0 [DEvent.subscribeTok 3, DEvent.depFire] (by decide) (by decide)).2.2.1,
   (dep_subscription_lifecycle 1 true
      (drun (derivedInit Nat 1 true) [DEvent.subscribeTok 0]).1
      (derivedUnsubscribe (drun (derivedInit Nat 1 true) [DEvent.subscribeTok 0]).1 0)
      0 [DEvent.subscribeTok 3, DEvent.depFire] (by decide) (by decide)).2.2.2⟩

theorem executeFinish_calls (s : DerivedState V) (r : Option V) :
    (executeFinish s r).2
      = (s.subjSubs.map (fun u => (u, r))).filter (fun c => !c.2.isNone) := by
  obtain ⟨dc, hcf, lv, sv, a, rn, pd, da, ss, fl, rs, rc⟩ := s
  cases hcf <;> cases pd <;> simp [executeFinish, executeStart]

theorem derivedSubscribe_calls_mem (s : DerivedState V) (t : Nat) :
    ∀ p ∈ (derivedSubscribe s t).2, p.1 = t ∧ p.2 ≠ none := by
  obtain ⟨dc, hcf, lv, sv, a, rn, pd, da, ss, fl, rs, rc⟩ := s
  cases hcf <;> cases lv <;> cases sv <;> cases rn <;>
    simp [derivedSubscribe, executeStart]

theorem dstep_calls_defined (s : DerivedState V) (e : DEvent V) :
    ∀ p ∈ (dstep s e).2, p.2 ≠ none := by
  cases e with
  | depFire => simp [dstep]
  | complete r =>
      by_cases hr : s.running = true
      · intro p hp
        simp only [dstep, hr, if_true] at hp
        rw [executeFinish_calls] at hp
        have h2 := (List.mem_filter.mp hp).2
        intro hnone
        rw [hnone] at h2
        simp at h2
      · simp [dstep, hr]
  | cacheExpire => simp [dstep]
  | subscribeTok t =>
      intro p hp
      have h1 : p ∈ (derivedSubscribe s t).2 := by simpa [dstep] using hp
      exact (derivedSubscribe_calls_mem s t p h1).2
  | unsubscribeTok t => simp [dstep]

theorem drun_calls_defined (tr : List (DEvent V)) (s : DerivedState V) :
    ∀ p ∈ (drun s tr).2, p.2 ≠ none := by
  induction tr generalizing s with
  | nil => simp [drun]
  | cons e es ih =>
      intro p hp
      rw [drun] at hp
      rcases List.mem_append.mp hp with h | h
      · exact dstep_calls_defined s e p h
      · exact ih (dstep s e).1 p h

/-- C9: for a cached derived store, a subscriber callback is never invoked
with `undefined`: every call any event sequence performs carries a defined
value (the fan-out path filters the `undefined` cache sentinel), and when the
compute function itself resolves to `undefined` the completion delivers
nothing to any subscriber. -/
theorem cached_no_undefined_delivery {V : Type} (d : Nat) (tr : List (DEvent V))
    (s : DerivedState V) :
    (∀ p ∈ (drun (derivedInit V d true) tr).2, p.2 ≠ none) ∧
    (dstep s (DEvent.complete none)).2 = [] := by
  refine ⟨drun_calls_defined tr (derivedInit V d true), ?_⟩
  by_cases hr : s.running = true
  · unfold dstep executeFinish
    by_cases hc : s.hasCache = true <;> by_cases hp : s.pending = true <;>
      simp [hr, hc, hp, List.filter_eq_nil_iff]
  · simp [dstep, hr]

/-- Witness for `cached_no_undefined_delivery`: on the concrete trace
subscribe-then-complete-with-3, the only delivered call is `(0, some 3)` and
its payload is defined. -/
theorem cached_no_undefined_delivery_witness :
    ((0, some 3) ∈ (drun (derivedInit Nat 1 true)
        [DEvent.subscribeTok 0, DEvent.complete (some 3)]).2) ∧
    ((0, some 3) : Nat × Option Nat).2 ≠ none :=
  ⟨by decide,
   (cached_no_undefined_delivery 1
      [DEvent.subscribeTok 0, DEvent.complete (some 3)]
      (derivedInit Nat 1 true)).1 (0, some 3) (by decide)⟩

theorem executeStart_cache (s : DerivedState V) :
    (executeStart s).lastValue = s.lastValue ∧
    (executeStart s).hasCache = s.hasCache ∧
    (executeStart s).runsCompleted = s.runsCompleted := by
  unfold executeStart
  by_cases hr : s.running = true <;> simp [hr]

theorem executeFinish_cache (s : DerivedState V) (r : Option V) :
    (executeFinish s r).1.lastValue = (if s.hasCache then r else s.lastValue) ∧
    (executeFinish s r).1.hasCache = s.hasCache ∧
    (executeFinish s r).1.runsCompleted = s.runsCompleted + 1 := by
  obtain ⟨dc, hcf, lv, sv, a, rn, pd, da, ss, fl, rs, rc⟩ := s
  cases hcf <;> cases pd <;> simp [executeFinish, executeStart]

theorem derivedSubscribe_cache (s : DerivedState V) (t : Nat) :
    (derivedSubscribe s t).1.lastValue = s.lastValue ∧
    (derivedSubscribe s t).1.hasCache = s.hasCache ∧
    (derivedSubscribe s t).1.runsCompleted = s.runsCompleted := by
  obtain ⟨dc, hcf, lv, sv, a, rn, pd, da, ss, fl, rs, rc⟩ := s
  cases hcf <;> cases lv <;> cases rn <;> simp [derivedSubscribe, executeStart]

theorem derivedUnsubscribe_cache (s : DerivedState V) (t : Nat) :
    (derivedUnsubscribe s t).lastValue = s.lastValue ∧
    (derivedUnsubscribe s t).hasCache = s.hasCache ∧
    (derivedUnsubscribe s t).runsCompleted = s.runsCompleted := by
  unfold derivedUnsubscribe
  by_cases hz : s.activeSubs - 1 = 0 <;> simp [hz]

theorem cache_inv_transfer (s s2 : DerivedState V)
    (h : s.lastValue ≠ none → s.hasCache = true ∧ 1 ≤ s.runsCompleted)
    (h1 : s2.lastValue = s.lastValue) (h2 : s2.hasCache = s.hasCache)
    (h3 : s.runsCompleted ≤ s2.runsCompleted) :
    s2.lastValue ≠ none → s2.hasCache = true ∧ 1 ≤ s2.runsCompleted := by
  intro hl
  rw [h1] at hl
  obtain ⟨ha, hb⟩ := h hl
  exact ⟨h2.trans ha, le_trans hb h3⟩

theorem dstep_cache_completed (s : DerivedState V) (e : DEvent V)
    (h : s.lastValue ≠ none → s.hasCache = true ∧ 1 ≤ s.runsCompleted) :
    (dstep s e).1.lastValue ≠ none →
      (dstep s e).1.hasCache = true ∧ 1 ≤ (dstep s e).1.runsCompleted := by
  cases e with
  | depFire =>
      by_cases hd : s.depSubsActive = true
      · have hf := executeStart_cache (V := V) s
        simp only [dstep, hd, if_true]
        exact cache_inv_transfer s _ h hf.1 hf.2.1 (le_of_eq hf.2.2.symm)
      · simpa [dstep, hd] using h
  | complete r =>
      by_cases hr : s.running = true
      · have hf := executeFinish_cache s r
        simp only [dstep, hr, if_true]
        intro hl
        rw [hf.1] at hl
        by_cases hc : s.hasCache = true
        · refine ⟨hf.2.1.trans hc, ?_⟩
          rw [hf.2.2]
          omega
        · simp only [hc, if_neg] at hl
          have hl2 : s.lastValue ≠ none := by simpa [hc] using hl
          exact absurd (h hl2).1 hc
      · simpa [dstep, hr] using h
  | cacheExpire => simp [dstep]
  | subscribeTok t =>
      have hf := derivedSubscribe_cache s t
      simp only [dstep]
      exact cache_inv_transfer s _ h hf.1 hf.2.1 (le_of_eq hf.2.2.symm)
  | unsubscribeTok t =>
      have hf := derivedUnsubscribe_cache s t
      simp only [dstep]
      exact cache_inv_transfer s _ h hf.1 hf.2.1 (le_of_eq hf.2.2.symm)

theorem drun_cache_completed (tr : List (DEvent V)) (s : DerivedState V)
    (h : s.lastValue ≠ none → s.hasCache = true ∧ 1 ≤ s.runsCompleted) :
    (drun s tr).1.lastValue ≠ none →
      (drun s tr).1.hasCache = true ∧ 1 ≤ (drun s tr).1.runsCompleted := by
  induction tr generalizing s with
  | nil => simpa [drun] using h
  | cons e es ih => simpa [drun] using ih (dstep s e).1 (dstep_cache_completed s e h)

/-- C10: `set` and `mutate` on a derived store always throw and leave the
state unchanged; `get` throws when caching is off, throws while no value is
cached (including right after the cache-expiry timer cleared it), and
whenever `get` succeeds on a reachable state, caching is on, at least one
recompute has completed, and the returned value is the unexpired cached
one. -/
theorem derived_store_readonly {V : Type} (s : DerivedState V) (v : V)
    (f : V → V) (d : Nat) (c : Bool) (tr : List (DEvent V)) :
    derivedSet s v = (Except.error "Cannot set derived store directly", s) ∧
    derivedMutate s f = (Except.error "Cannot mutate derived store directly", s) ∧
    (s.hasCache = false →
      (derivedGet s).1 = Except.error "Cannot get value from a non-cached derived store") ∧
    (s.hasCache = true → s.lastValue = none →
      (derivedGet s).1 = Except.error "Value not yet initialized") ∧
    (s.hasCache = true →
      (derivedGet (dstep s DEvent.cacheExpire).1).1
        = Except.error "Value not yet initialized") ∧
    (∀ w, (derivedGet (drun (derivedInit V d c) tr).1).1 = Except.ok w →
      (drun (derivedInit V d c) tr).1.hasCache = true ∧
      1 ≤ (drun (derivedInit V d c) tr).1.runsCompleted ∧
      (drun (derivedInit V d c) tr).1.lastValue = some w) := by
  refine ⟨rfl, rfl, ?_, ?_, ?_, ?_⟩
  · intro hc
    simp [derivedGet, hc]
  · intro hc hl
    simp [derivedGet, hc, hl]
  · intro hc
    simp [dstep, derivedGet, hc]
  · intro w hw
    have hbase : (derivedInit V d c).lastValue ≠ none →
        (derivedInit V d c).hasCache = true ∧ 1 ≤ (derivedInit V d c).runsCompleted := by
      simp [derivedInit]
    unfold derivedGet at hw
    by_cases hc : (drun (derivedInit V d c) tr).1.hasCache = false
    · simp [hc] at hw
    · cases hl : (drun (derivedInit V d c) tr).1.lastValue with
      | none => simp [hc, hl] at hw
      | some u =>
          simp [hc, hl] at hw
          have hinv := drun_cache_completed tr (derivedInit V d c) hbase (by simp [hl])
          exact ⟨hinv.1, hinv.2, by rw [hw]⟩

/-- Witness for `derived_store_readonly`: after the first recompute of a
cached derived store completes with `3`, `get` succeeds with `3` and the
state indeed records one completed run and the cached value. -/
theorem derived_store_readonly_witness :
    ((derivedGet (drun (derivedInit Nat 1 true)
        [DEvent.subscribeTok 0, DEvent.complete (some 3)]).1).1 = Except.ok 3) ∧
    1 ≤ (drun (derivedInit Nat 1 true)
        [DEvent.subscribeTok 0, DEvent.complete (some 3)]).1.runsCompleted ∧
    (drun (derivedInit Nat 1 true)
        [DEvent.subscribeTok 0, DEvent.complete (some 3)]).1.lastValue = some 3 :=
  ⟨by rfl,
   ((derived_store_readonly (derivedInit Nat 1 true) 0 id 1 true
      [DEvent.subscribeTok 0, DEvent.complete (some 3)]).2.2.2.2.2 3 (by rfl)).2.1,
   ((derived_store_readonly (derivedInit Nat 1 true) 0 id 1 true
      [DEvent.subscribeTok 0, DEvent.complete (some 3)]).2.2.2.2.2 3 (by rfl)).2.2⟩

theorem executeStart_subjSubs (s : DerivedState V) :
    (executeStart s).subjSubs = s.subjSubs := by
  unfold executeStart
  by_cases hr : s.running = true <;> simp [hr]

theorem derivedSubscribe_subjSubs (s : DerivedState V) (u : Nat) :
    (derivedSubscribe s u).1.subjSubs = s.subjSubs ++ [u] := by
  obtain ⟨dc, hcf, lv, sv, a, rn, pd, da, ss, fl, rs, rc⟩ := s
  cases hcf <;> cases lv <;> cases rn <;> simp [derivedSubscribe, executeStart]

theorem executeFinish_subjSubs (s : DerivedState V) (r : Option V) :
    (executeFinish s r).1.subjSubs = s.subjSubs := by
  obtain ⟨dc, hcf, lv, sv, a, rn, pd, da, ss, fl, rs, rc⟩ := s
  cases hcf <;> cases pd <;> simp [executeFinish, executeStart]

theorem not_mem_erase_self (t : Nat) :
    ∀ {l : List Nat}, l.Nodup → t ∉ l.erase t := by
  intro l
  induction l with
  | nil => intro _; simp
  | cons a as ih =>
      intro h
      rcases List.nodup_cons.mp h with ⟨ha, has⟩
      by_cases hat : a = t
      · subst hat
        simpa [List.erase_cons_head] using ha
      · intro hmem
        rw [List.erase_cons_tail (by simp [hat])] at hmem
        rcases List.mem_cons.mp hmem with h1 | h1
        · exact hat h1.symm
        · exact ih has h1

theorem derivedUnsubscribe_active (s : DerivedState V) (t : Nat) :
    (derivedUnsubscribe s t).activeSubs = s.activeSubs - 1 := by
  obtain ⟨dc, hcf, lv, sv, a, rn, pd, da, ss, fl, rs, rc⟩ := s
  by_cases hz : a - 1 = 0 <;> simp [derivedUnsubscribe, hz]

theorem dstep_no_call_to_cancelled (s : DerivedState V) (e : DEvent V) (t : Nat)
    (hout : t ∉ s.subjSubs) (hne : e ≠ DEvent.subscribeTok t) :
    (∀ p ∈ (dstep s e).2, p.1 ≠ t) ∧ t ∉ (dstep s e).1.subjSubs := by
  cases e with
  | depFire =>
      refine ⟨by simp [dstep], ?_⟩
      by_cases hd : s.depSubsActive = true <;>
        simp [dstep, hd, executeStart_subjSubs, hout]
  | complete r =>
      by_cases hr : s.running = true
      · constructor
        · intro p hp
          simp only [dstep, hr, if_true] at hp
          rw [executeFinish_calls] at hp
          have h2 := (List.mem_filter.mp hp).1
          obtain ⟨u, hu, he⟩ := List.mem_map.mp h2
          intro hpt
          have h5 : u = t := by
            have h6 : (u, r).1 = p.1 := (Prod.ext_iff.mp he).1
            simpa using h6.trans hpt
          exact hout (h5 ▸ hu)
        · have h3 : (dstep s (DEvent.complete r)).1.subjSubs = s.subjSubs := by
            have h4 : (executeFinish s r).1.subjSubs = s.subjSubs :=
              executeFinish_subjSubs s r
            simpa [dstep, hr] using h4
          rw [h3]
          exact hout
      · exact ⟨by simp [dstep, hr], by simpa [dstep, hr] using hout⟩
  | cacheExpire => exact ⟨by simp [dstep], by simpa [dstep] using hout⟩
  | subscribeTok u =>
      have hut : u ≠ t := by
        intro h
        exact hne (by rw [h])
      constructor
      · intro p hp
        have h1 : p ∈ (derivedSubscribe s u).2 := by simpa [dstep] using hp
        have h2 := (derivedSubscribe_calls_mem s u p h1).1
        rw [h2]
        exact hut
      · have h3 : (dstep s (DEvent.subscribeTok u)).1.subjSubs = s.subjSubs ++ [u] := by
          simpa [dstep] using derivedSubscribe_subjSubs s u
        rw [h3]
        intro hmem
        rcases List.mem_append.mp hmem with h | h
        · exact hout h
        · exact hut.symm (List.mem_singleton.mp h)
  | unsubscribeTok u =>
      refine ⟨by simp [dstep], ?_⟩
      have h3 : (dstep s (DEvent.unsubscribeTok u)).1.subjSubs
          = s.subjSubs.erase u := by
        unfold dstep derivedUnsubscribe
        by_cases hz : s.activeSubs - 1 = 0 <;> simp [hz]
      rw [h3]
      intro hmem
      exact hout (List.mem_of_mem_erase hmem)

theorem drun_no_call_to_cancelled (tr : List (DEvent V)) (s : DerivedState V)
    (t : Nat) (hout : t ∉ s.subjSubs)
    (hnores : ∀ e ∈ tr, e ≠ DEvent.subscribeTok t) :
    ∀ p ∈ (drun s tr).2, p.1 ≠ t := by
  induction tr generalizing s with
  | nil => simp [drun]
  | cons e es ih =>
      intro p hp
      rw [drun] at hp
      have hstep := dstep_no_call_to_cancelled s e t hout
        (hnores e (List.mem_cons_self e es))
      rcases List.mem_append.mp hp with h | h
      · exact hstep.1 p h
      · exact ih (dstep s e).1 hstep.2
          (fun e2 he2 => hnores e2 (List.mem_cons_of_mem e he2)) p h

/-- C8 counterexample: cancel on a derived-store subscription handle is not
idempotent.  A cached derived store acquires two subscribers (tokens 5 and
7); cancelling token 5's handle once leaves the dependency handles in place,
but cancelling the **same** handle a second time decrements the subscriber
count again, reaches zero, and releases the dependency subscriptions even
though subscriber 7 is still attached — the second cancel very much has a
further effect. -/
theorem cancel_not_idempotent_cx :
    (derivedUnsubscribe (drun (derivedInit Nat 1 true)
        [DEvent.subscribeTok 5, DEvent.subscribeTok 7]).1 5).depHandles = 1 ∧
    (derivedUnsubscribe (derivedUnsubscribe (drun (derivedInit Nat 1 true)
        [DEvent.subscribeTok 5, DEvent.subscribeTok 7]).1 5) 5).depHandles = 0 ∧
    (derivedUnsubscribe (derivedUnsubscribe (drun (derivedInit Nat 1 true)
        [DEvent.subscribeTok 5, DEvent.subscribeTok 7]).1 5) 5).subjSubs = [7] ∧
    (derivedUnsubscribe (derivedUnsubscribe (drun (derivedInit Nat 1 true)
        [DEvent.subscribeTok 5, DEvent.subscribeTok 7]).1 5) 5)
      ≠ (derivedUnsubscribe (drun (derivedInit Nat 1 true)
        [DEvent.subscribeTok 5, DEvent.subscribeTok 7]).1 5) := by
  refine ⟨by decide, by decide, by decide, by decide⟩

/-- C8 amended: once a derived-store subscription handle is cancelled its
subscriber callback never fires again — over any later event sequence that
does not re-subscribe the token, including the completion of a recompute
that was in flight at cancel time — and the live-query handle's cancel
(`active = false`) is idempotent; the derived-store handle's cancel is not:
each invocation decrements the subscriber count again
(`activeSubs - 2` after a double cancel), which can release the dependency
subscriptions while other subscribers remain. -/
theorem cancel_semantics {V : Type} (s : DerivedState V) (t : Nat)
    (tr : List (DEvent V)) (q : QueryRunState)
    (hnodup : s.subjSubs.Nodup)
    (hnores : ∀ e ∈ tr, e ≠ DEvent.subscribeTok t) :
    t ∉ (derivedUnsubscribe s t).subjSubs ∧
    (∀ p ∈ (drun (derivedUnsubscribe s t) tr).2, p.1 ≠ t) ∧
    (derivedUnsubscribe (derivedUnsubscribe s t) t).activeSubs = s.activeSubs - 2 ∧
    queryUnsubscribe (queryUnsubscribe q) = queryUnsubscribe q := by
  have hsubs : (derivedUnsubscribe s t).subjSubs = s.subjSubs.erase t := by
    unfold derivedUnsubscribe
    by_cases hz : s.activeSubs - 1 = 0 <;> simp [hz]
  have hout : t ∉ (derivedUnsubscribe s t).subjSubs := by
    rw [hsubs]
    exact not_mem_erase_self t hnodup
  refine ⟨hout, drun_no_call_to_cancelled tr _ t hout hnores, ?_, ?_⟩
  · rw [derivedUnsubscribe_active, derivedUnsubscribe_active]
    omega
  · simp [queryUnsubscribe]

/-- Witness for `cancel_semantics`: with subscribers 5 and 7 attached and a
recompute in flight, cancelling 5 and then letting the run complete delivers
nothing to 5. -/
theorem cancel_semantics_witness :
    ((drun (derivedInit Nat 1 true)
        [DEvent.subscribeTok 5, DEvent.subscribeTok 7]).1.subjSubs.Nodup ∧
     (5 : Nat) ∉ (derivedUnsubscribe (drun (derivedInit Nat 1 true)
        [DEvent.subscribeTok 5, DEvent.subscribeTok 7]).1 5).subjSubs) ∧
    (∀ p ∈ (drun (derivedUnsubscribe (drun (derivedInit Nat 1 true)
          [DEvent.subscribeTok 5, DEvent.subscribeTok 7]).1 5)
        [DEvent.complete (some 3)]).2, p.1 ≠ 5) :=
  ⟨⟨by decide,
    (cancel_semantics (drun (derivedInit Nat 1 true)
        [DEvent.subscribeTok 5, DEvent.subscribeTok 7]).1 5
      [DEvent.complete (some 3)] ⟨true, false, false, true⟩
      (by decide) (by decide)).1⟩,
   (cancel_semantics (drun (derivedInit Nat 1 true)
        [DEvent.subscribeTok 5, DEvent.subscribeTok 7]).1 5
      [DEvent.complete (some 3)] ⟨true, false, false, true⟩
      (by decide) (by decide)).2.1⟩

/-- C1 counterexample: the subscription handler deduplicates nothing.  Two
subscribe frames on one connection with the same action name and identical
params each invoke the query factory and each construct their own derived
computation — after the two frames the connection holds two computations for
the key, together holding two dependency-subscription handles, not one
shared computation.  Moreover one unsubscribe frame for that name cancels
**both** subscriptions, so cancelling "one" subscriber does disturb the
other. -/
theorem no_shared_computation_cx :
    compsFor (handleSubscribe 1 false "items" "p1"
        (handleSubscribe 1 false "items" "p1" (connInit Nat)).1).1 "items" "p1" = 2 ∧
    totalDepHandles (handleSubscribe 1 false "items" "p1"
        (handleSubscribe 1 false "items" "p1" (connInit Nat)).1).1 = 2 ∧
    (handleUnsubscribe "items" (handleSubscribe 1 false "items" "p1"
        (handleSubscribe 1 false "items" "p1" (connInit Nat)).1).1).1.subs = [] := by
  refine ⟨by decide, by decide, by decide⟩

/-- C1 amended: for every subscribe frame the server invokes the action
factory and attaches the connection callback to a **fresh** derived
computation — frames with the same action name and identical canonical
params do not share a computation, the count of live computations for the
`(name, params)` pair grows by one per frame — and an unsubscribe frame for
a name cancels every subscription with that name on the connection (the
protocol has no per-subscriber handle). -/
theorem per_frame_computation {V : Type} (d : Nat) (hc : Bool)
    (name params : String) (st : ConnState V) :
    (handleSubscribe d hc name params st).1.subs
      = st.subs
        ++ [⟨name, params, (derivedSubscribe (derivedInit V d hc) st.nextTok).1,
             st.nextTok⟩] ∧
    compsFor (handleSubscribe d hc name params st).1 name params
      = compsFor st name params + 1 ∧
    (handleUnsubscribe name st).1.subs
      = st.subs.filter (fun cs => ¬cs.name = name) ∧
    (handleUnsubscribe name st).2
      = (st.subs.filter (fun cs => cs.name = name)).map
          (fun cs => derivedUnsubscribe cs.comp cs.tok) := by
  refine ⟨?_, ?_, rfl, rfl⟩
  · unfold handleSubscribe
    rcases h : derivedSubscribe (derivedInit V d hc) st.nextTok with ⟨comp1, calls⟩
    simp [h]
  · unfold compsFor handleSubscribe
    rcases h : derivedSubscribe (derivedInit V d hc) st.nextTok with ⟨comp1, calls⟩
    simp [h, List.filter_append]

/-- C6 counterexample: a mutation whose declared validator rejects the params
produces **no** outbound frame at all — in particular not the single error
frame carrying the requestId that the claim requires — because the message
handler wraps the dispatch in no try/catch and the rejection escapes
unhandled; the execute function is not called. -/
theorem mutation_no_error_frame_cx :
    handleMutationFrame
      (some { schema := some (fun n : Nat =>
                if n < 100 then Except.ok n else Except.error "Invalid input"),
              fn := fun q : Option Nat => q.getD 0 })
      "addItem" "r1" 250
      = (([] : List (OutFrame Nat)), 0) ∧
    ((handleMutationFrame
      (some { schema := some (fun n : Nat =>
                if n < 100 then Except.ok n else Except.error "Invalid input"),
              fn := fun q : Option Nat => q.getD 0 })
      "addItem" "r1" 250).1.filter OutFrame.isError).length = 0 := by
  exact ⟨rfl, rfl⟩

/-- C6 amended: when a mutation's declared validator rejects the params, the
execute function is not called and the server emits no frame for that
request — no error frame and no mutationResult frame; the handler does not
close the connection.  When validation succeeds, the server emits exactly
one `mutationResult` frame carrying the awaited result and the frame's
requestId, with execute called exactly once.  An unknown action name yields
one error frame (without a requestId). -/
theorem mutation_validation {P Q R : Type} (m : MutationDef P Q R)
    (name rid : String) (args : P) (parse : P → Except String Q)
    (hs : m.schema = some parse) :
    (∀ e, parse args = Except.error e →
        handleMutationFrame (some m) name rid args = ([], 0)) ∧
    (∀ q, parse args = Except.ok q →
        handleMutationFrame (some m) name rid args
          = ([OutFrame.mutationResult name (m.fn (some q)) rid], 1)) ∧
    handleMutationFrame (none : Option (MutationDef P Q R)) name rid args
      = ([OutFrame.errorFrame ("Unknown action: " ++ name)], 0) := by
  refine ⟨?_, ?_, rfl⟩
  · intro e he
    simp only [handleMutationFrame, runMutation, hs, he]
  · intro q hq
    simp only [handleMutationFrame, runMutation, hs, hq]

/-- Witness for `mutation_validation`: with the concrete validator accepting
numbers below 100, params 50 validate and produce exactly one
`mutationResult` frame carrying the result and `"r1"`. -/
theorem mutation_validation_witness :
    ((fun n : Nat => if n < 100 then Except.ok n else Except.error "Invalid input") 50
        = Except.ok 50) ∧
    handleMutationFrame
      (some { schema := some (fun n : Nat =>
                if n < 100 then Except.ok n else Except.error "Invalid input"),
              fn := fun q : Option Nat => q.getD 0 })
      "addItem" "r1" 50
      = ([OutFrame.mutationResult "addItem" 50 "r1"], 1) :=
  ⟨rfl,
   (mutation_validation
      { schema := some (fun n : Nat =>
          if n < 100 then Except.ok n else Except.error "Invalid input"),
        fn := fun q : Option Nat => q.getD 0 }
      "addItem" "r1" 50
      (fun n : Nat => if n < 100 then Except.ok n else Except.error "Invalid input")
      rfl).2.1 50 rfl⟩

/-- Witness for `store_set_fanout`: a store with subscribers `[1, 2]` fires
exactly `[(1, 9), (2, 9)]` on `set 9`. -/
theorem store_set_fanout_witness :
    (Store.set { value := 0, subscribers := [1, 2] } (9 : Nat)).2
      = [(1, 9), (2, 9)] :=
  (store_set_fanout { value := 0, subscribers := [1, 2] } (9 : Nat)
    (freshSessionStore 0) "a").1.trans (by decide)

/-- Witness for `session_ops_need_context`: with no ambient session id, `get`
on a concrete session store errors and returns the state unchanged. -/
theorem session_ops_need_context_witness :
    sessionStoreGet none (freshSessionStore (5 : Nat))
      = (Except.error noSessionContextMsg, freshSessionStore 5) :=
  (session_ops_need_context (freshSessionStore (5 : Nat)) 0 id 0).1

/-- Witness for `per_frame_computation`: one more subscribe frame for
`("items", "p1")` raises the computation count for that key by one. -/
theorem per_frame_computation_witness :
    compsFor (handleSubscribe 1 false "items" "p1" (connInit Nat)).1 "items" "p1"
      = compsFor (connInit Nat) "items" "p1" + 1 :=
  (per_frame_computation 1 false "items" "p1" (connInit Nat)).2.1

end Reactivly
